import Mathlib

/-!
Verification of the constant-product AMM pricing engine
(`programs/anchor-spl-amm/src`): fee strategies, price-impact engine,
volatility tracker, and the swap orchestrator
`swap_exact_tokens_for_tokens_process`.

Modelling conventions:
* `I64F64` fixed-point numbers (64 integer bits, 64 fractional bits) are
  represented by their raw bit value, an `Int` in `[-2^127, 2^127)`; the
  numeric value is `bits / 2^64`.  Multiplication discards the extra
  fractional bits of the wide product (an arithmetic right shift, i.e.
  floor division by `2^64`); division computes `(a * 2^64) / b`.  Every
  division appearing in the verified paths has non-negative operands, where
  floor and truncation agree, so `Int.fdiv` is used uniformly.
* Machine integers (`u64`, `u16`) are `Nat` with explicit bounds checks.
  Rust builds of this program run with overflow checks, and the `fixed`
  crate's checked operations are `unwrap`ed by the orchestrator, so every
  overflow, underflow or division by zero is a panic.  A panic is modelled
  as `Option.none` in the pure helpers and as the distinguished outcome
  `SwapErr.panic` in the orchestrator.
* The volatility calculator converts prices to `f64`, takes `f64::ln`, and
  converts back to `I64F64`.  Floating point is not embeddable, so this
  round trip is abstracted as an explicit function parameter `lnFix`; all
  theorems about the tracker hold for every instantiation of `lnFix`.
-/

/-- Scale factor of the `I64F64` fixed-point representation: one unit of
value corresponds to `2^64` raw bits. -/
def fixScale : Int := 2 ^ 64

/-- Smallest representable `I64F64` bit pattern (`-2^127`). -/
def fixLo : Int := -(2 ^ 127)

/-- One past the largest representable `I64F64` bit pattern (`2^127`). -/
def fixHi : Int := 2 ^ 127

/-- Range check shared by all checked fixed-point operations: a result
outside the `i128` bit range overflows (panics / returns `None`). -/
def fixCheck (b : Int) : Option Int :=
  if fixLo ≤ b ∧ b < fixHi then some b else none

/-- `I64F64::from_num` on an integer: panics unless the integer fits in the
64 signed integer bits. -/
def fixFromInt (n : Int) : Option Int :=
  if -(2 ^ 63) ≤ n ∧ n < 2 ^ 63 then some (n * fixScale) else none

/-- Checked fixed-point addition. -/
def fixAdd (a b : Int) : Option Int := fixCheck (a + b)

/-- Checked fixed-point subtraction. -/
def fixSub (a b : Int) : Option Int := fixCheck (a - b)

/-- Checked fixed-point multiplication: wide product shifted right by the
64 fractional bits. -/
def fixMul (a b : Int) : Option Int := fixCheck (Int.fdiv (a * b) fixScale)

/-- Checked fixed-point division: `None` on a zero divisor (the `fixed`
crate panics there, and `checked_div` yields `None`). -/
def fixDiv (a b : Int) : Option Int :=
  if b = 0 then none else fixCheck (Int.fdiv (a * fixScale) b)

/-- Fuel-bounded Newton iteration for the integer square root, mirroring
`Nat.sqrt.iter`; structural recursion on the fuel keeps it reducible by
the kernel. -/
def sqrtIterF (n : Nat) : Nat → Nat → Nat
  | 0, guess => guess
  | fuel + 1, guess =>
    let next := (guess + n / guess) / 2
    if next < guess then sqrtIterF n fuel next else guess

/-- Kernel-reducible integer square root, extensionally equal to
`Nat.sqrt` (proved in `natSqrt_eq`). -/
def natSqrt (n : Nat) : Nat :=
  if n ≤ 1 then n else sqrtIterF n (n / 2) (n / 2)

/-- Fixed-point square root (`I64F64::sqrt`), defined for non-negative
values: the floor of the real square root at the same precision,
`sqrt(b/2^64) * 2^64 = sqrt(b * 2^64)` rounded down. -/
def fixSqrt (b : Int) : Option Int :=
  if 0 ≤ b then some (Int.ofNat (natSqrt (b.toNat * 2 ^ 64))) else none

/-- `to_num::<u64>()`: truncate the fractional bits (round toward negative
infinity) and require the result to fit in `u64`. -/
def fixToU64 (b : Int) : Option Nat :=
  let q := Int.fdiv b fixScale
  if 0 ≤ q ∧ q < 2 ^ 64 then some q.toNat else none

/-- `to_num::<u16>()`: truncate the fractional bits and require the result
to fit in `u16`. -/
def fixToU16 (b : Int) : Option Nat :=
  let q := Int.fdiv b fixScale
  if 0 ≤ q ∧ q < 2 ^ 16 then some q.toNat else none

/-- Checked `u64` multiplication. -/
def u64Mul (a b : Nat) : Option Nat :=
  if a * b < 2 ^ 64 then some (a * b) else none

/-- Checked `u64` addition. -/
def u64Add (a b : Nat) : Option Nat :=
  if a + b < 2 ^ 64 then some (a + b) else none

/-- Checked `u64` subtraction (panics on underflow). -/
def u64Sub (a b : Nat) : Option Nat :=
  if b ≤ a then some (a - b) else none

/-- Checked `u16` multiplication. -/
def u16Mul (a b : Nat) : Option Nat :=
  if a * b < 2 ^ 16 then some (a * b) else none

/-- Checked `u16` addition. -/
def u16Add (a b : Nat) : Option Nat :=
  if a + b < 2 ^ 16 then some (a + b) else none

/-- Checked `u16` subtraction (panics on underflow). -/
def u16Sub (a b : Nat) : Option Nat :=
  if b ≤ a then some (a - b) else none

/-! ## Fee engine (`models/fee_strategy.rs`) -/

/-- The four fee strategies of `FeeStrategy`. -/
inductive FeeStrategy where
  | Fixed
  | Dynamic
  | Tiered
  | VolatilityAdjusted
deriving DecidableEq, Repr

/-- `FeeConfig`: fee bounds in basis points plus the adjustment factor
(scaled by 1000). -/
structure FeeConfig where
  strategy : FeeStrategy
  min_fee_bps : Nat
  max_fee_bps : Nat
  base_fee_bps : Nat
  adjustment_factor : Nat
deriving DecidableEq, Repr

/-- `FeeCalculator::calculate_dynamic_fee_bps`: quadratic fee adjustment in
the trade/reserve ratio, clamped to the configured band.  `u16::clamp`
panics when `min > max`. -/
def calculate_dynamic_fee_bps (config : FeeConfig) (input_amount reserve : Nat) :
    Option Nat :=
  (if reserve = 0 then fixFromInt 1
   else (fixFromInt (input_amount : Int)).bind fun a =>
     (fixFromInt (reserve : Int)).bind fun b => fixDiv a b).bind fun ratio =>
  ((fixFromInt (config.adjustment_factor : Int)).bind fun x =>
     (fixFromInt 1000).bind fun y => fixDiv x y).bind fun adjustment =>
  (fixFromInt (config.base_fee_bps : Int)).bind fun base_fee =>
  (fixMul adjustment ratio).bind fun t =>
  (fixMul t ratio).bind fun fee_adjustment =>
  (fixFromInt 10000).bind fun tenk =>
  (fixMul fee_adjustment tenk).bind fun fa =>
  (fixAdd base_fee fa).bind fun calculated_fee =>
  (fixToU16 calculated_fee).bind fun fee_bps =>
  if config.min_fee_bps ≤ config.max_fee_bps then
    some (min (max fee_bps config.min_fee_bps) config.max_fee_bps)
  else none

/-- `FeeCalculator::calculate_tiered_fee_bps`: four volume tiers with
exclusive upper bounds at `1_000 * 10^6`, `10_000 * 10^6`, and
`100_000 * 10^6` base units. -/
def calculate_tiered_fee_bps (config : FeeConfig) (input_amount : Nat) :
    Option Nat :=
  let tier1 := 1000 * 10 ^ 6
  let tier2 := 10000 * 10 ^ 6
  let tier3 := 100000 * 10 ^ 6
  if input_amount < tier1 then some config.max_fee_bps
  else if input_amount < tier2 then
    (u16Add config.max_fee_bps config.base_fee_bps).bind fun s => some (s / 2)
  else if input_amount < tier3 then some config.base_fee_bps
  else some config.min_fee_bps

/-- `FeeCalculator::calculate_volatility_adjusted_fee_bps`: minimum fee
below the low threshold (50), maximum above the high threshold (200),
linear interpolation in between (`u16` arithmetic). -/
def calculate_volatility_adjusted_fee_bps (config : FeeConfig) (volatility : Nat) :
    Option Nat :=
  let low_threshold := 50
  let high_threshold := 200
  if volatility < low_threshold then some config.min_fee_bps
  else if volatility > high_threshold then some config.max_fee_bps
  else
    let volatility_range := high_threshold - low_threshold
    (u16Sub config.max_fee_bps config.min_fee_bps).bind fun fee_range =>
    (u16Sub volatility low_threshold).bind fun vol_position =>
    (u16Mul vol_position fee_range).bind fun p =>
    u16Add config.min_fee_bps (p / volatility_range)

/-- `FeeCalculator::get_fee_rate_bps`: dispatch on the configured
strategy; a missing volatility reading defaults to 0. -/
def get_fee_rate_bps (config : FeeConfig) (input_amount reserve_in reserve_out : Nat)
    (volatility : Option Nat) : Option Nat :=
  match config.strategy with
  | .Fixed => some config.base_fee_bps
  | .Dynamic => calculate_dynamic_fee_bps config input_amount reserve_in
  | .Tiered => calculate_tiered_fee_bps config input_amount
  | .VolatilityAdjusted =>
      calculate_volatility_adjusted_fee_bps config (volatility.getD 0)

/-! ## Price-impact engine (`models/price_impact.rs`) -/

/-- `PriceImpactConfig`: toggle, slippage cap in basis points, and the
dynamic adjustment factor (scaled by 1000). -/
structure PriceImpactConfig where
  enabled : Bool
  max_slippage_bps : Nat
  dynamic_adjustment_factor : Nat
deriving DecidableEq, Repr

/-- Bit pattern of `I64F64::from_num(0.9)`.  The `f64` literal `0.9` is
`8106479329266893 * 2^-53`, which is exactly representable in 64
fractional bits, so the conversion is exact: `8106479329266893 * 2^11`. -/
def fixNinePointTenths : Int := 8106479329266893 * 2048

/-- `PriceImpactCalculator::calculate_price_impact`:
`1 - (price_after / price_before)` with
`price_before = reserve_out / reserve_in` and
`price_after = (reserve_out - output_amount) / (reserve_in + input_amount)`.
The `config` argument is accepted and ignored, as in the source. -/
def calculate_price_impact (config : PriceImpactConfig)
    (input_amount output_amount reserve_in reserve_out : Nat) : Option Int :=
  (fixFromInt (reserve_out : Int)).bind fun rout =>
  (fixFromInt (reserve_in : Int)).bind fun rin =>
  (fixDiv rout rin).bind fun price_before =>
  (u64Sub reserve_out output_amount).bind fun diff =>
  (u64Add reserve_in input_amount).bind fun s =>
  (fixFromInt (diff : Int)).bind fun d =>
  (fixFromInt (s : Int)).bind fun sf =>
  (fixDiv d sf).bind fun price_after =>
  (fixDiv price_after price_before).bind fun ratio =>
  (fixFromInt 1).bind fun one =>
  fixSub one ratio

/-- `PriceImpactCalculator::is_price_impact_acceptable`: always true when
protection is disabled, otherwise `impact * 10000 ≤ max_slippage_bps`. -/
def is_price_impact_acceptable (config : PriceImpactConfig) (price_impact : Int) :
    Option Bool :=
  if config.enabled = false then some true
  else
    (fixFromInt 10000).bind fun tenk =>
    (fixMul price_impact tenk).bind fun impact_bps =>
    (fixFromInt (config.max_slippage_bps : Int)).bind fun max_slippage =>
    some (decide (impact_bps ≤ max_slippage))

/-- `PriceImpactCalculator::adjust_output_for_slippage`: identity when
disabled; otherwise scales the output by
`1 - impact * dynamic_adjustment_factor / 1000`, floored at `0.9`. -/
def adjust_output_for_slippage (config : PriceImpactConfig)
    (output_amount : Nat) (price_impact : Int) : Option Nat :=
  if config.enabled = false then some output_amount
  else
    (fixFromInt (config.dynamic_adjustment_factor : Int)).bind fun daf =>
    (fixMul price_impact daf).bind fun t =>
    (fixFromInt 1000).bind fun thousand =>
    (fixDiv t thousand).bind fun q =>
    (fixFromInt 1).bind fun one =>
    (fixSub one q).bind fun adjustment_factor =>
    let min_adjustment := fixNinePointTenths
    let final_adjustment :=
      if adjustment_factor < min_adjustment then min_adjustment
      else adjustment_factor
    (fixFromInt (output_amount : Int)).bind fun out =>
    (fixMul out final_adjustment).bind fun r =>
    fixToU64 r

/-- `PriceImpactCalculator::is_trade_beneficial`: the trade is beneficial
when `output_value > input_value * (1 + fee_percentage)`. -/
def is_trade_beneficial (input_value output_value fee_percentage : Int) :
    Option Bool :=
  (fixFromInt 1).bind fun one =>
  (fixAdd one fee_percentage).bind fun f =>
  (fixMul input_value f).bind fun cost =>
  some (decide (cost < output_value))

/-! ## Volatility tracker (`models/volatility.rs`) -/

/-- `MAX_SAMPLES`: capacity of the circular price-sample buffer. -/
def MAX_SAMPLES : Nat := 24

/-- `VolatilityConfig`: tracking toggle and the policy parameters used by
the tracker (factors scaled by 1000). -/
structure VolatilityConfig where
  enabled : Bool
  protection_factor : Nat
  decay_factor : Nat
  min_volatility_threshold : Nat
  window_size : Nat
  min_samples : Nat
  decay_lambda : Int
  compensation_factor : Int
  compensation_period : Int
deriving DecidableEq, Repr

/-- `VolatilityTracker`: fixed 24-slot circular buffer of price bits and
timestamps, write cursor, last computed volatility (raw `I64F64` bits),
and bookkeeping timestamps.  The Rust arrays of length `MAX_SAMPLES` are
length-24 lists here. -/
structure VolatilityTracker where
  price_samples : List Int
  timestamps : List Int
  current_index : Nat
  volatility_raw : Int
  last_updated : Int
  last_compensated : Int
deriving DecidableEq, Repr

/-- Both tracker arrays have the fixed capacity `MAX_SAMPLES`. -/
def VolatilityTracker.WF (t : VolatilityTracker) : Prop :=
  t.price_samples.length = MAX_SAMPLES ∧ t.timestamps.length = MAX_SAMPLES

/-- The all-zero tracker a pool starts with. -/
def VolatilityTracker.zero : VolatilityTracker :=
  ⟨List.replicate 24 0, List.replicate 24 0, 0, 0, 0, 0⟩

/-- Decay weight `decay^i` computed by repeated fixed-point
multiplication, exactly as the inner `for` loop does. -/
def weightPow (decay : Int) : Nat → Option Int
  | 0 => some fixScale
  | k + 1 => (weightPow decay k).bind fun w => fixMul w decay

/-- One pass of the `calculate_volatility` accumulation loop: iterations
`0, 1, …, n-1` in source order, accumulating the weighted squared log
return and the count of valid sample pairs.  `lnFix p q` abstracts
`I64F64::from_num(f64::ln(p_f64 / q_f64))`; the `> 0.0` guards on the
converted `f64` prices coincide with positivity of the raw bits. -/
def volAccum (lnFix : Int → Int → Option Int) (ps ts : List Int)
    (cur : Nat) (decay_lambda : Int) : Nat → Option (Int × Nat)
  | 0 => some (0, 0)
  | i + 1 =>
    (volAccum lnFix ps ts cur decay_lambda i).bind fun acc =>
    if cur + MAX_SAMPLES - 1 < i then none
    else
      let idx := (cur + MAX_SAMPLES - 1 - i) % MAX_SAMPLES
      let prev_idx := (idx + MAX_SAMPLES - 1) % MAX_SAMPLES
      if ts.getD idx 0 > 0 ∧ ts.getD prev_idx 0 > 0 then
        let price := ps.getD idx 0
        let prev_price := ps.getD prev_idx 0
        if price > 0 ∧ prev_price > 0 then
          (lnFix price prev_price).bind fun log_return =>
          ((fixFromInt decay_lambda).bind fun a =>
            (fixFromInt 1000).bind fun b => fixDiv a b).bind fun decay =>
          (weightPow decay i).bind fun weight =>
          (fixMul log_return log_return).bind fun sq =>
          (fixMul sq weight).bind fun wsq =>
          (fixAdd acc.1 wsq).bind fun sum =>
          some (sum, acc.2 + 1)
        else some acc
      else some acc

/-- `VolatilityTracker::calculate_volatility`: walk `window_size` sample
pairs backwards from the cursor; with at least `min_samples` valid pairs,
annualize `sqrt(mean weighted squared log return)` by multiplying with
`365 * 24`; otherwise keep the previous estimate.  Returns the new
`volatility_raw` bits. -/
def calculate_volatility (lnFix : Int → Int → Option Int)
    (t : VolatilityTracker) (config : VolatilityConfig) : Option Int :=
  (volAccum lnFix t.price_samples t.timestamps t.current_index
      config.decay_lambda config.window_size).bind fun acc =>
  if acc.2 ≥ config.min_samples then
    (fixFromInt (acc.2 : Int)).bind fun validFix =>
    (fixDiv acc.1 validFix).bind fun avg_squared_return =>
    (fixSqrt avg_squared_return).bind fun s =>
    (fixFromInt (365 * 24)).bind fun per =>
    fixMul s per
  else some t.volatility_raw

/-- `VolatilityTracker::update_price_sample`: no-op when tracking is
disabled; otherwise recompute the volatility if the previous slot holds a
sample, write the new price and timestamp at the cursor, advance the
cursor modulo `MAX_SAMPLES`, and stamp `last_updated`.  Array accesses
out of bounds (cursor ≥ 24) panic, modelled as `none`. -/
def update_price_sample (lnFix : Int → Int → Option Int)
    (t : VolatilityTracker) (current_price : Int) (timestamp : Int)
    (config : VolatilityConfig) : Option VolatilityTracker :=
  if config.enabled = false then some t
  else
    let prev_index := if t.current_index = 0 then MAX_SAMPLES - 1
                      else t.current_index - 1
    if prev_index < MAX_SAMPLES then
      (if t.timestamps.getD prev_index 0 > 0 then
        calculate_volatility lnFix t config
       else some t.volatility_raw).bind fun vol =>
      if t.current_index < MAX_SAMPLES then
        some { price_samples := t.price_samples.set t.current_index current_price
               timestamps := t.timestamps.set t.current_index timestamp
               current_index := (t.current_index + 1) % MAX_SAMPLES
               volatility_raw := vol
               last_updated := timestamp
               last_compensated := t.last_compensated }
      else none
    else none

/-- `VolatilityTracker::get_volatility`: the stored estimate, verbatim. -/
def get_volatility (t : VolatilityTracker) : Int := t.volatility_raw

/-- `VolatilityTracker::estimate_impermanent_loss`: 0 if either price is
non-positive; otherwise `|2 * sqrt(r) / (1 + r) - 1|` for
`r = current_price / initial_price`, with a non-negative result mapped
to 0. -/
def estimate_impermanent_loss (initial_price current_price : Int) : Option Int :=
  if initial_price ≤ 0 ∨ current_price ≤ 0 then some 0
  else
    (fixDiv current_price initial_price).bind fun price_ratio =>
    (fixSqrt price_ratio).bind fun sqrt_ratio =>
    (fixFromInt 1).bind fun one =>
    (fixAdd one price_ratio).bind fun denominator =>
    (fixFromInt 2).bind fun two =>
    (fixMul two sqrt_ratio).bind fun tsr =>
    (fixDiv tsr denominator).bind fun holding_value =>
    (fixSub holding_value one).bind fun impermanent_loss =>
    if impermanent_loss < 0 then fixCheck |impermanent_loss|
    else some 0

/-! ## Swap orchestrator
(`instructions/swap_exact_tokens_for_tokens.rs`) -/

/-- The relevant variants of `TutorialError` (`errors.rs`). -/
inductive TutorialError where
  | InvalidFee
  | InvalidMint
  | DepositTooSmall
  | OutputTooSmall
  | InvariantViolated
  | ExcessiveSlippage
  | ExcessiveVolatility
  | InvalidPriceConfig
  | PriceImpactTooHigh
  | TradeNotBeneficial
deriving DecidableEq, Repr

/-- Outcome classification of a swap attempt: a program error returned
with `err!`, a panic (unchecked arithmetic, `unwrap`, out-of-bounds), or a
failed token-program transfer propagated with `?`. -/
inductive SwapErr where
  | program (e : TutorialError)
  | panic
  | transferFailed
deriving DecidableEq, Repr

/-- The policy fields of the `Amm` account read during a swap. -/
structure Amm where
  fee : Nat
  fee_config : FeeConfig
  price_impact_config : PriceImpactConfig
  volatility_config : VolatilityConfig
deriving DecidableEq, Repr

/-- The mutable balances and tracker state a swap reads and writes: the
two pool token accounts, the trader's two token accounts, and the pool's
volatility tracker. -/
structure SwapState where
  pool_a : Nat
  pool_b : Nat
  trader_a : Nat
  trader_b : Nat
  tracker : VolatilityTracker
deriving DecidableEq, Repr

/-- Sequencing for the orchestrator's `Except`-valued steps. -/
def ebind {α β : Type} (x : Except SwapErr α) (f : α → Except SwapErr β) :
    Except SwapErr β :=
  match x with
  | .ok a => f a
  | .error e => .error e

/-- A checked (`Option`-valued) step whose `None` case is a panic:
models `unwrap` and the implicit panics of unchecked arithmetic. -/
def pan {α : Type} (o : Option α) : Except SwapErr α :=
  match o with
  | some a => .ok a
  | none => .error .panic

/-- A checked step inside a token-program transfer: its failure is a
recoverable CPI error propagated with `?`. -/
def tr {α : Type} (o : Option α) : Except SwapErr α :=
  match o with
  | some a => .ok a
  | none => .error .transferFailed

/-- Step 1 of `swap_exact_tokens_for_tokens_process`: never spend more
than the trader owns on the input side. -/
def clampInput (s : SwapState) (swap_a : Bool) (input_amount : Nat) : Nat :=
  if swap_a = true ∧ input_amount > s.trader_a then s.trader_a
  else if swap_a = false ∧ input_amount > s.trader_b then s.trader_b
  else input_amount

/-- Step 2's fee-rate determination: the Fixed strategy uses the
AMM-level `fee` field; every other strategy reads the tracker's current
volatility (converted to `u16`) and asks the fee engine. -/
def feeStage (amm : Amm) (s : SwapState) (swap_a : Bool) (input : Nat) :
    Except SwapErr Nat :=
  if amm.fee_config.strategy ≠ FeeStrategy.Fixed then
    ebind (pan (fixToU16 (get_volatility s.tracker))) fun volatility =>
    pan (get_fee_rate_bps amm.fee_config input
          (if swap_a then s.pool_a else s.pool_b)
          (if swap_a then s.pool_b else s.pool_a)
          (some volatility))
  else .ok amm.fee

/-- Step 3's conservative price-impact estimate, computed with an output
placeholder of 0 against the direction-appropriate reserves. -/
def impactStage (amm : Amm) (s : SwapState) (swap_a : Bool) (input : Nat) :
    Except SwapErr Int :=
  if swap_a then
    pan (calculate_price_impact amm.price_impact_config input 0 s.pool_a s.pool_b)
  else
    pan (calculate_price_impact amm.price_impact_config input 0 s.pool_b s.pool_a)

/-- Step 3's constant-product output:
`taxed_input * reserve_out / (reserve_in + taxed_input)` in checked
`I64F64` arithmetic with each `checked_*` result `unwrap`ed, floored to
`u64`. -/
def outputStage (s : SwapState) (swap_a : Bool) (taxed_input : Nat) :
    Except SwapErr Nat :=
  if swap_a then
    ebind (pan (fixFromInt (taxed_input : Int))) fun ti =>
    ebind (pan (fixFromInt (s.pool_b : Int))) fun pb =>
    ebind (pan (fixMul ti pb)) fun num =>
    ebind (pan (fixFromInt (s.pool_a : Int))) fun pa =>
    ebind (pan (fixAdd pa ti)) fun den =>
    ebind (pan (fixDiv num den)) fun q =>
    pan (fixToU64 q)
  else
    ebind (pan (fixFromInt (taxed_input : Int))) fun ti =>
    ebind (pan (fixFromInt (s.pool_a : Int))) fun pa =>
    ebind (pan (fixMul ti pa)) fun num =>
    ebind (pan (fixFromInt (s.pool_b : Int))) fun pb =>
    ebind (pan (fixAdd pb ti)) fun den =>
    ebind (pan (fixDiv num den)) fun q =>
    pan (fixToU64 q)

/-- Steps 1–3 of `swap_exact_tokens_for_tokens_process`: clamp the input
to the trader's balance, determine the fee rate, tax the input, compute
and gate the price impact, compute the raw constant-product output, and
adjust it for slippage.  Returns
`(input, fee_rate_bps, taxed_input, price_impact, output, adjusted_output)`. -/
def swapCore1 (amm : Amm) (s : SwapState) (swap_a : Bool)
    (input_amount : Nat) : Except SwapErr (Nat × Nat × Nat × Int × Nat × Nat) :=
  ebind (feeStage amm s swap_a (clampInput s swap_a input_amount))
    fun fee_rate_bps =>
  ebind (pan (u64Mul (clampInput s swap_a input_amount) fee_rate_bps)) fun t1 =>
  ebind (pan (u64Sub (clampInput s swap_a input_amount) (t1 / 10000)))
    fun taxed_input =>
  ebind (impactStage amm s swap_a (clampInput s swap_a input_amount))
    fun price_impact =>
  ebind (pan (is_price_impact_acceptable amm.price_impact_config price_impact))
    fun acceptable =>
  if acceptable = false then .error (.program .PriceImpactTooHigh)
  else
    ebind (outputStage s swap_a taxed_input) fun output =>
    ebind (pan (adjust_output_for_slippage amm.price_impact_config output
        price_impact)) fun adjusted_output =>
    .ok (clampInput s swap_a input_amount, fee_rate_bps, taxed_input,
      price_impact, output, adjusted_output)

/-- The beneficial-trade gate of step 5: convert the clamped input, the
adjusted output, and the fee fraction `fee_rate_bps / 10000` to
fixed-point and run `is_trade_beneficial` on them. -/
def beneficialCheck (input fee_rate_bps adjusted_output : Nat) :
    Except SwapErr Bool :=
  ebind (pan (fixFromInt (input : Int))) fun inF =>
  ebind (pan (fixFromInt (adjusted_output : Int))) fun outF =>
  ebind (pan ((fixFromInt (fee_rate_bps : Int)).bind fun a =>
      (fixFromInt 10000).bind fun b => fixDiv a b)) fun feeF =>
  pan (is_trade_beneficial inF outF feeF)

/-- Step 6, the two token-program transfers: trader pays `input` into the
input-side pool account, the pool pays `adjusted_output` out of the
output-side pool account.  Returns the updated
`(pool_in-side, pool_out-side, trader_in-side, trader_out-side)` balances
in `(pool_a, pool_b, trader_a, trader_b)` order for `swap_a` and the
mirrored order otherwise. -/
def swapTransfers (s : SwapState) (swap_a : Bool)
    (input adjusted_output : Nat) : Except SwapErr (Nat × Nat × Nat × Nat) :=
  if swap_a then
    ebind (tr (u64Sub s.trader_a input)) fun ta =>
    ebind (tr (u64Add s.pool_a input)) fun pa =>
    ebind (tr (u64Sub s.pool_b adjusted_output)) fun pb =>
    ebind (tr (u64Add s.trader_b adjusted_output)) fun tb =>
    .ok (pa, pb, ta, tb)
  else
    ebind (tr (u64Sub s.trader_b input)) fun tb =>
    ebind (tr (u64Add s.pool_b input)) fun pb =>
    ebind (tr (u64Sub s.pool_a adjusted_output)) fun pa =>
    ebind (tr (u64Add s.trader_a adjusted_output)) fun ta =>
    .ok (pa, pb, ta, tb)

/-- Steps 5–8 of `swap_exact_tokens_for_tokens_process`, after the
minimum-output check has passed: the beneficial-trade check, the
pre-trade invariant, the two token transfers, the post-trade invariant
check, and the volatility update. -/
def swapRest (lnFix : Int → Int → Option Int) (amm : Amm) (s : SwapState)
    (swap_a : Bool) (input fee_rate_bps adjusted_output : Nat) (now : Int) :
    Except SwapErr SwapState :=
  ebind (beneficialCheck input fee_rate_bps adjusted_output) fun beneficial =>
  if beneficial = false then .error (.program .TradeNotBeneficial)
  else
    ebind (pan (u64Mul s.pool_a s.pool_b)) fun invariant =>
    ebind (swapTransfers s swap_a input adjusted_output) fun moved =>
    ebind (pan (u64Mul moved.1 moved.2.1)) fun invariant_after =>
    if invariant > invariant_after then .error (.program .InvariantViolated)
    else
      ebind
        (if swap_a then
          pan ((fixFromInt (moved.1 : Int)).bind fun x =>
            (fixFromInt (moved.2.1 : Int)).bind fun y => fixDiv x y)
         else
          pan ((fixFromInt (moved.2.1 : Int)).bind fun x =>
            (fixFromInt (moved.1 : Int)).bind fun y => fixDiv x y))
        fun current_price =>
      ebind (pan (update_price_sample lnFix s.tracker current_price now
          amm.volatility_config)) fun tracker =>
      .ok { pool_a := moved.1, pool_b := moved.2.1,
            trader_a := moved.2.2.1, trader_b := moved.2.2.2,
            tracker := tracker }

/-- `swap_exact_tokens_for_tokens_process`: the full swap pipeline,
composed of `swapCore1`, the minimum-output check (step 4), and
`swapRest`. -/
def swap_exact_tokens_for_tokens_process (lnFix : Int → Int → Option Int)
    (amm : Amm) (s : SwapState) (swap_a : Bool)
    (input_amount min_output_amount : Nat) (now : Int) :
    Except SwapErr SwapState :=
  ebind (swapCore1 amm s swap_a input_amount) fun r =>
  if r.2.2.2.2.2 < min_output_amount then .error (.program .OutputTooSmall)
  else swapRest lnFix amm s swap_a r.1 r.2.1 r.2.2.2.2.2 now

/-- An `lnFix` instantiation for closed evaluations on paths that never
reach the volatility calculation. -/
def lnZero : Int → Int → Option Int := fun _ _ => some 0

/-! ## Lemmas about the checked primitives and the plumbing -/

theorem ebind_ok {α β : Type} (a : α) (f : α → Except SwapErr β) :
    ebind (.ok a) f = f a := rfl

theorem ebind_error {α β : Type} (e : SwapErr) (f : α → Except SwapErr β) :
    ebind (.error e) f = .error e := rfl

theorem pan_some {α : Type} (a : α) : pan (some a) = .ok a := rfl

theorem pan_none {α : Type} : pan (none : Option α) = .error .panic := rfl

theorem tr_some {α : Type} (a : α) : tr (some a) = .ok a := rfl

theorem tr_none {α : Type} : tr (none : Option α) = .error .transferFailed := rfl

theorem ebind_eq_ok {α β : Type} (x : Except SwapErr α) (f : α → Except SwapErr β)
    (b : β) : ebind x f = .ok b ↔ ∃ a, x = .ok a ∧ f a = .ok b := by
  cases x <;> simp [ebind]

theorem ebind_eq_error {α β : Type} (x : Except SwapErr α)
    (f : α → Except SwapErr β) (c : SwapErr) :
    ebind x f = .error c ↔ x = .error c ∨ ∃ a, x = .ok a ∧ f a = .error c := by
  cases x <;> simp [ebind]

theorem pan_eq_ok {α : Type} (o : Option α) (a : α) :
    pan o = .ok a ↔ o = some a := by
  cases o <;> simp [pan]

theorem pan_eq_error {α : Type} (o : Option α) (c : SwapErr) :
    pan o = .error c ↔ o = none ∧ c = .panic := by
  cases o <;> simp [pan, eq_comm]

theorem tr_eq_ok {α : Type} (o : Option α) (a : α) :
    tr o = .ok a ↔ o = some a := by
  cases o <;> simp [tr]

theorem tr_eq_error {α : Type} (o : Option α) (c : SwapErr) :
    tr o = .error c ↔ o = none ∧ c = .transferFailed := by
  cases o <;> simp [tr, eq_comm]

theorem u64Mul_eq_some {a b c : Nat} :
    u64Mul a b = some c ↔ a * b < 2 ^ 64 ∧ c = a * b := by
  unfold u64Mul; split <;> simp_all [eq_comm]

theorem u64Add_eq_some {a b c : Nat} :
    u64Add a b = some c ↔ a + b < 2 ^ 64 ∧ c = a + b := by
  unfold u64Add; split <;> simp_all [eq_comm]

theorem u64Sub_eq_some {a b c : Nat} :
    u64Sub a b = some c ↔ b ≤ a ∧ c = a - b := by
  unfold u64Sub; split <;> simp_all [eq_comm]

theorem u16Mul_eq_some {a b c : Nat} :
    u16Mul a b = some c ↔ a * b < 2 ^ 16 ∧ c = a * b := by
  unfold u16Mul; split <;> simp_all [eq_comm]

theorem u16Add_eq_some {a b c : Nat} :
    u16Add a b = some c ↔ a + b < 2 ^ 16 ∧ c = a + b := by
  unfold u16Add; split <;> simp_all [eq_comm]

theorem u16Sub_eq_some {a b c : Nat} :
    u16Sub a b = some c ↔ b ≤ a ∧ c = a - b := by
  unfold u16Sub; split <;> simp_all [eq_comm]

/-! ## Concrete swap fixtures -/

/-- An AMM whose trade fee is 30 bps under the Fixed strategy, with
price-impact protection and volatility tracking disabled (their default
state). -/
def ammFixed30 : Amm :=
  { fee := 30
    fee_config := ⟨.Fixed, 10, 100, 30, 1000⟩
    price_impact_config := ⟨false, 50, 1000⟩
    volatility_config := ⟨false, 500, 950, 100, 24, 2, 950, 1000, 86400⟩ }

/-- Scenario A of the spec: balanced reserves of 1,000,000 on both sides
and a trader holding 100,000 units of token A. -/
def stateScenarioA : SwapState :=
  { pool_a := 1000000, pool_b := 1000000, trader_a := 100000, trader_b := 0,
    tracker := VolatilityTracker.zero }

/-- A heavily unbalanced pool (1 vs 1,000,000) on which a swap can
actually pass the beneficial-trade check. -/
def stateUnbalanced : SwapState :=
  { pool_a := 1, pool_b := 1000000, trader_a := 100, trader_b := 0,
    tracker := VolatilityTracker.zero }

/-- A pool with an empty `A` reserve, driving the price-impact
computation into a division by zero. -/
def stateEmptyA : SwapState :=
  { pool_a := 0, pool_b := 1000000, trader_a := 10, trader_b := 0,
    tracker := VolatilityTracker.zero }

/-- Modelled from the spec: the annualization claim C4 asserts — identical
to `calculate_volatility` except that the mean weighted squared log
return's square root is multiplied by the square root of `365 * 24`
(periods per year) instead of by `365 * 24` itself. -/
def calculate_volatility_claimC4 (lnFix : Int → Int → Option Int)
    (t : VolatilityTracker) (config : VolatilityConfig) : Option Int :=
  (volAccum lnFix t.price_samples t.timestamps t.current_index
      config.decay_lambda config.window_size).bind fun acc =>
  if acc.2 ≥ config.min_samples then
    (fixFromInt (acc.2 : Int)).bind fun validFix =>
    (fixDiv acc.1 validFix).bind fun avg_squared_return =>
    (fixSqrt avg_squared_return).bind fun s =>
    (fixFromInt (365 * 24)).bind fun per =>
    (fixSqrt per).bind fun sper =>
    fixMul s sper
  else some t.volatility_raw

/-- An `lnFix` instantiation returning the log-return `1.0` for every
sample pair, used for the concrete C4 evaluations. -/
def lnUnit : Int → Int → Option Int := fun _ _ => some fixScale

/-- A tracker holding two valid samples of price `1.0` at timestamps 1
and 2, cursor at slot 2. -/
def trackerC4 : VolatilityTracker :=
  { price_samples := [2 ^ 64, 2 ^ 64, 0, 0, 0, 0, 0, 0, 0, 0, 0, 0,
      0, 0, 0, 0, 0, 0, 0, 0, 0, 0, 0, 0]
    timestamps := [1, 2, 0, 0, 0, 0, 0, 0, 0, 0, 0, 0,
      0, 0, 0, 0, 0, 0, 0, 0, 0, 0, 0, 0]
    current_index := 2
    volatility_raw := 0
    last_updated := 2
    last_compensated := 0 }

/-- A volatility configuration with `window_size = 1`, `min_samples = 1`
and no decay (`decay_lambda = 1000`). -/
def configC4 : VolatilityConfig := ⟨true, 500, 950, 100, 1, 1, 1000, 1000, 86400⟩

/-! ## Arithmetic-layer lemmas -/

theorem sqrtIterF_eq (n : Nat) :
    ∀ guess fuel, guess ≤ fuel → sqrtIterF n fuel guess = Nat.sqrt.iter n guess := by
  intro guess
  induction guess using Nat.strong_induction_on with
  | _ guess ih =>
    intro fuel hle
    cases fuel with
    | zero =>
      interval_cases guess
      simp [sqrtIterF, Nat.sqrt.iter]
    | succ f =>
      rw [Nat.sqrt.iter]
      simp only [sqrtIterF]
      by_cases h : (guess + n / guess) / 2 < guess
      · rw [if_pos h, dif_pos h, ih _ h _ (by omega)]
      · rw [if_neg h, dif_neg h]

/-- `natSqrt` computes `Nat.sqrt`. -/
theorem natSqrt_eq (n : Nat) : natSqrt n = Nat.sqrt n := by
  unfold natSqrt Nat.sqrt
  by_cases h : n ≤ 1
  · rw [if_pos h, if_pos h]
  · rw [if_neg h, if_neg h, sqrtIterF_eq n (n / 2) (n / 2) le_rfl]

/-! ## Claim C2 -/

/-- Claim C2 (scenario A, as the code actually behaves): with reserves
(1,000,000, 1,000,000), the Fixed strategy at 30 bps, input 10,000 on
side A, sufficient trader balance and `min_output_amount = 0`, the
pipeline computes taxed input 9,970 and raw output 9,871 (inside the
claimed interval [9,860, 9,880]) — but the swap then fails with
`TradeNotBeneficial`, because `is_trade_beneficial` compares the raw
output amount 9,871 against `input * (1 + fee) = 10,030`. -/
theorem C2_scenarioA_rejected_not_beneficial :
    swapCore1 ammFixed30 stateScenarioA true 10000 =
      .ok (10000, 30, 9970, 182641030432767838, 9871, 9871) ∧
    (9860 ≤ 9871 ∧ 9871 ≤ 9880) ∧
    beneficialCheck 10000 30 9871 = .ok false ∧
    swap_exact_tokens_for_tokens_process lnZero ammFixed30 stateScenarioA
      true 10000 0 0 = .error (.program .TradeNotBeneficial) :=
  ⟨rfl, ⟨by decide, by decide⟩, rfl, rfl⟩

/-! ## Claim C5 -/

set_option maxRecDepth 2000 in
/-- Claim C5 (amended): arithmetic failures on the swap path abort rather
than signal a recoverable error — with the Fixed strategy and an empty
input-side reserve, the A-to-B swap always ends in the modelled panic
outcome (the price-impact division by zero is reached through `unwrap`ed
checked arithmetic, and the integer fee arithmetic is unchecked), never
in a returned `TutorialError`. -/
theorem C5_swap_panics_on_zero_reserve (lnFix : Int → Int → Option Int)
    (amm : Amm) (s : SwapState) (input_amount min_output_amount : Nat)
    (now : Int)
    (hstrat : amm.fee_config.strategy = FeeStrategy.Fixed)
    (hzero : s.pool_a = 0) :
    swap_exact_tokens_for_tokens_process lnFix amm s true input_amount
      min_output_amount now = .error .panic := by
  have himpact : ∀ inp : Nat,
      calculate_price_impact amm.price_impact_config inp 0 s.pool_a s.pool_b =
        none := by
    intro inp
    unfold calculate_price_impact
    cases hr : fixFromInt (s.pool_b : Int) with
    | none => rfl
    | some rout =>
      rw [Option.some_bind]
      have h0 : fixFromInt ((s.pool_a : Int)) = some 0 := by
        rw [hzero]
        decide
      rw [h0, Option.some_bind]
      have : fixDiv rout 0 = none := by unfold fixDiv; rw [if_pos rfl]
      rw [this]
      rfl
  have hfee : feeStage amm s true (clampInput s true input_amount) =
      .ok amm.fee := by
    unfold feeStage
    rw [hstrat]
    simp
  have himp : impactStage amm s true (clampInput s true input_amount) =
      .error .panic := by
    unfold impactStage
    rw [if_pos rfl, himpact (clampInput s true input_amount)]
    rfl
  unfold swap_exact_tokens_for_tokens_process swapCore1
  rw [hfee, ebind_ok]
  cases hm : u64Mul (clampInput s true input_amount) amm.fee with
  | none => rw [pan_none, ebind_error, ebind_error]
  | some t1 =>
    rw [pan_some, ebind_ok]
    cases hs2 : u64Sub (clampInput s true input_amount) (t1 / 10000) with
    | none => rw [pan_none, ebind_error, ebind_error]
    | some taxed =>
      rw [pan_some, ebind_ok, himp, ebind_error, ebind_error]

/-- Counterexample to C5 as stated: at the concrete input
(`pool_a = 0`, input 10, Fixed fee 30 bps) the swap path hits a division
by zero and aborts (modelled panic outcome) instead of returning a
recoverable error. -/
theorem C5_swap_panics_counterexample :
    swap_exact_tokens_for_tokens_process lnZero ammFixed30 stateEmptyA
      true 10 0 0 = .error .panic ∧
    ∀ e : TutorialError,
      swap_exact_tokens_for_tokens_process lnZero ammFixed30 stateEmptyA
        true 10 0 0 ≠ .error (.program e) := by
  constructor
  · rfl
  · intro e h
    rw [show swap_exact_tokens_for_tokens_process lnZero ammFixed30 stateEmptyA
        true 10 0 0 = .error .panic from rfl] at h
    exact absurd h (by simp)

/-- Witness for C5's amended theorem at a second concrete input. -/
theorem C5_swap_panics_on_zero_reserve_witness :
    swap_exact_tokens_for_tokens_process lnZero
      { fee := 25
        fee_config := ⟨.Fixed, 10, 100, 25, 1000⟩
        price_impact_config := ⟨true, 50, 1000⟩
        volatility_config := ⟨false, 500, 950, 100, 24, 2, 950, 1000, 86400⟩ }
      { pool_a := 0, pool_b := 777, trader_a := 3, trader_b := 0,
        tracker := VolatilityTracker.zero } true 3 0 5 = .error .panic :=
  C5_swap_panics_on_zero_reserve lnZero _ _ 3 0 5 rfl rfl

/-! ## Error-kind characterizations of the late swap stages -/

theorem error_of_pan {α : Type} {o : Option α} {c : SwapErr}
    (h : pan o = .error c) : c = .panic :=
  ((pan_eq_error o c).1 h).2

theorem error_of_tr {α : Type} {o : Option α} {c : SwapErr}
    (h : tr o = .error c) : c = .transferFailed :=
  ((tr_eq_error o c).1 h).2

/-- The beneficial-trade stage can only fail by panicking. -/
theorem beneficialCheck_error {input fee_rate_bps adjusted_output : Nat}
    {c : SwapErr}
    (h : beneficialCheck input fee_rate_bps adjusted_output = .error c) :
    c = .panic := by
  unfold beneficialCheck at h
  rw [ebind_eq_error] at h
  rcases h with h | ⟨a, ha, h⟩
  · exact error_of_pan h
  rw [ebind_eq_error] at h
  rcases h with h | ⟨a2, ha2, h⟩
  · exact error_of_pan h
  rw [ebind_eq_error] at h
  rcases h with h | ⟨a3, ha3, h⟩
  · exact error_of_pan h
  · exact error_of_pan h

/-- The transfer stage can only fail with a transfer error. -/
theorem swapTransfers_error {s : SwapState} {swap_a : Bool}
    {input adjusted_output : Nat} {c : SwapErr}
    (h : swapTransfers s swap_a input adjusted_output = .error c) :
    c = .transferFailed := by
  unfold swapTransfers at h
  split at h <;>
  · rw [ebind_eq_error] at h
    rcases h with h | ⟨x1, hx1, h⟩
    · exact error_of_tr h
    rw [ebind_eq_error] at h
    rcases h with h | ⟨x2, hx2, h⟩
    · exact error_of_tr h
    rw [ebind_eq_error] at h
    rcases h with h | ⟨x3, hx3, h⟩
    · exact error_of_tr h
    rw [ebind_eq_error] at h
    rcases h with h | ⟨x4, hx4, h⟩
    · exact error_of_tr h
    · exact absurd h (by simp)

/-- After the minimum-output check has passed, the remaining pipeline can
fail only with a panic, a transfer failure, `TradeNotBeneficial`, or
`InvariantViolated` — never with `OutputTooSmall`. -/
theorem swapRest_error_kinds {lnFix : Int → Int → Option Int} {amm : Amm}
    {s : SwapState} {swap_a : Bool} {input fee_rate_bps adjusted_output : Nat}
    {now : Int} {c : SwapErr}
    (h : swapRest lnFix amm s swap_a input fee_rate_bps adjusted_output now =
      .error c) :
    c = .panic ∨ c = .transferFailed ∨ c = .program .TradeNotBeneficial ∨
      c = .program .InvariantViolated := by
  unfold swapRest at h
  rw [ebind_eq_error] at h
  rcases h with h | ⟨b, hb, h⟩
  · exact Or.inl (beneficialCheck_error h)
  split at h
  · injection h with h
    exact Or.inr (Or.inr (Or.inl h.symm))
  rw [ebind_eq_error] at h
  rcases h with h | ⟨inv, hinv, h⟩
  · exact Or.inl (error_of_pan h)
  rw [ebind_eq_error] at h
  rcases h with h | ⟨moved, hmoved, h⟩
  · exact Or.inr (Or.inl (swapTransfers_error h))
  rw [ebind_eq_error] at h
  rcases h with h | ⟨aft, haft, h⟩
  · exact Or.inl (error_of_pan h)
  split at h
  · injection h with h
    exact Or.inr (Or.inr (Or.inr h.symm))
  rw [ebind_eq_error] at h
  rcases h with h | ⟨pr, hpr, h⟩
  · split at h <;> exact Or.inl (error_of_pan h)
  rw [ebind_eq_error] at h
  rcases h with h | ⟨tk, htk, h⟩
  · exact Or.inl (error_of_pan h)
  · exact absurd h (by simp)

/-! ## Claim C7 -/

/-- Claim C7: with every other swap parameter held fixed (any reserves,
fee configuration, and impact value produced by the pipeline), a swap
whose slippage-adjusted output equals `min_output_amount` passes the
minimum-output check and proceeds, while a request for one unit more than
the adjusted output fails with `OutputTooSmall`. -/
theorem C7_min_output_boundary (lnFix : Int → Int → Option Int) (amm : Amm)
    (s : SwapState) (swap_a : Bool) (input_amount : Nat) (now : Int)
    (r : Nat × Nat × Nat × Int × Nat × Nat)
    (hcore : swapCore1 amm s swap_a input_amount = .ok r) :
    (swap_exact_tokens_for_tokens_process lnFix amm s swap_a input_amount
        r.2.2.2.2.2 now =
      swapRest lnFix amm s swap_a r.1 r.2.1 r.2.2.2.2.2 now ∧
     swap_exact_tokens_for_tokens_process lnFix amm s swap_a input_amount
        r.2.2.2.2.2 now ≠ .error (.program .OutputTooSmall)) ∧
    swap_exact_tokens_for_tokens_process lnFix amm s swap_a input_amount
      (r.2.2.2.2.2 + 1) now = .error (.program .OutputTooSmall) := by
  have heq : ∀ mo : Nat,
      swap_exact_tokens_for_tokens_process lnFix amm s swap_a input_amount
          mo now =
        if r.2.2.2.2.2 < mo then .error (.program .OutputTooSmall)
        else swapRest lnFix amm s swap_a r.1 r.2.1 r.2.2.2.2.2 now := by
    intro mo
    unfold swap_exact_tokens_for_tokens_process
    rw [hcore, ebind_ok]
  refine ⟨⟨?_, ?_⟩, ?_⟩
  · rw [heq, if_neg (lt_irrefl _)]
  · rw [heq, if_neg (lt_irrefl _)]
    intro h
    rcases swapRest_error_kinds h with h1 | h1 | h1 | h1 <;> simp at h1
  · rw [heq, if_pos (by omega)]

/-- Witness for C7 on the unbalanced pool: adjusted output 990,099 passes
at `min_output_amount = 990099` and fails with `OutputTooSmall` at
990,100. -/
theorem C7_min_output_boundary_witness :
    (swap_exact_tokens_for_tokens_process lnZero ammFixed30 stateUnbalanced
        true 100 990099 0 =
      swapRest lnZero ammFixed30 stateUnbalanced true 100 30 990099 0 ∧
     swap_exact_tokens_for_tokens_process lnZero ammFixed30 stateUnbalanced
        true 100 990099 0 ≠ .error (.program .OutputTooSmall)) ∧
    swap_exact_tokens_for_tokens_process lnZero ammFixed30 stateUnbalanced
      true 100 990100 0 = .error (.program .OutputTooSmall) :=
  C7_min_output_boundary lnZero ammFixed30 stateUnbalanced true 100 0
    (100, 30, 100, 18264103043276783779, 990099, 990099) rfl

/-! ## Claim C1 -/

/-- Claim C1: a swap that returns `Ok` never decreases the product of the
pool's two reserve balances (first conjunct); and whenever execution
reaches the invariant check — the beneficial-trade gate returned `true`
and the transfers produced updated reserves whose (representable) product
is strictly below the pre-trade (representable) product — the swap is
rejected with `InvariantViolated` (second conjunct). -/
theorem C1_swap_product_nondecreasing (lnFix : Int → Int → Option Int)
    (amm : Amm) (s : SwapState) (swap_a : Bool)
    (input_amount min_output_amount : Nat) (now : Int) :
    (∀ res, swap_exact_tokens_for_tokens_process lnFix amm s swap_a
        input_amount min_output_amount now = .ok res →
      s.pool_a * s.pool_b ≤ res.pool_a * res.pool_b) ∧
    (∀ input fee_rate_bps adjusted_output pa2 pb2 ta2 tb2,
      beneficialCheck input fee_rate_bps adjusted_output = .ok true →
      swapTransfers s swap_a input adjusted_output = .ok (pa2, pb2, ta2, tb2) →
      s.pool_a * s.pool_b < 2 ^ 64 →
      pa2 * pb2 < 2 ^ 64 →
      pa2 * pb2 < s.pool_a * s.pool_b →
      swapRest lnFix amm s swap_a input fee_rate_bps adjusted_output now =
        .error (.program .InvariantViolated)) := by
  constructor
  · intro res h
    unfold swap_exact_tokens_for_tokens_process at h
    rw [ebind_eq_ok] at h
    obtain ⟨r, hr, h⟩ := h
    split at h
    · exact absurd h (by simp)
    unfold swapRest at h
    rw [ebind_eq_ok] at h
    obtain ⟨b, hb, h⟩ := h
    split at h
    · exact absurd h (by simp)
    rw [ebind_eq_ok] at h
    obtain ⟨inv, hinv, h⟩ := h
    rw [ebind_eq_ok] at h
    obtain ⟨moved, hmoved, h⟩ := h
    rw [ebind_eq_ok] at h
    obtain ⟨aft, haft, h⟩ := h
    split at h
    case isTrue => exact absurd h (by simp)
    case isFalse hle =>
    rw [ebind_eq_ok] at h
    obtain ⟨pr, hpr, h⟩ := h
    rw [ebind_eq_ok] at h
    obtain ⟨tk, htk, h⟩ := h
    injection h with h
    rw [pan_eq_ok, u64Mul_eq_some] at hinv haft
    rw [← h]
    dsimp only
    rw [← haft.2, ← hinv.2]
    exact Nat.le_of_not_lt hle
  · intro input fee_rate_bps adjusted_output pa2 pb2 ta2 tb2 hben htrans
      hinv2 haft2 hlt
    unfold swapRest
    rw [hben, ebind_ok, if_neg (by simp)]
    have h1 : u64Mul s.pool_a s.pool_b = some (s.pool_a * s.pool_b) := by
      rw [u64Mul_eq_some]; exact ⟨hinv2, rfl⟩
    rw [h1, pan_some, ebind_ok, htrans, ebind_ok]
    dsimp only
    have h2 : u64Mul pa2 pb2 = some (pa2 * pb2) := by
      rw [u64Mul_eq_some]; exact ⟨haft2, rfl⟩
    rw [h2, pan_some, ebind_ok, if_pos hlt]

/-- Witness for C1: a successful swap on the unbalanced pool takes the
product from 1,000,000 to 1,000,001; and forcing an adjusted output of
999,999 on the same pool makes the invariant check reject with
`InvariantViolated`. -/
theorem C1_swap_product_nondecreasing_witness :
    swap_exact_tokens_for_tokens_process lnZero ammFixed30 stateUnbalanced
        true 100 0 0 =
      .ok { pool_a := 101, pool_b := 9901, trader_a := 0, trader_b := 990099,
            tracker := VolatilityTracker.zero } ∧
    (1 * 1000000 : Nat) ≤ 101 * 9901 ∧
    swapRest lnZero ammFixed30 stateUnbalanced true 100 30 999999 0 =
      .error (.program .InvariantViolated) := by
  have h := C1_swap_product_nondecreasing lnZero ammFixed30 stateUnbalanced
    true 100 0 0
  refine ⟨rfl, ?_, ?_⟩
  · exact h.1 ⟨101, 9901, 0, 990099, VolatilityTracker.zero⟩ rfl
  · exact h.2 100 30 999999 101 1 0 999999 rfl rfl (by decide) (by decide)
      (by decide)

/-! ## Claim C3 -/

/-- Claim C3: under the configuration invariant
`min_fee_bps ≤ base_fee_bps ≤ max_fee_bps ≤ 10000`, every value
`get_fee_rate_bps` returns lies in `[min_fee_bps, max_fee_bps]`, for every
strategy, input amount, reserve pair, and volatility reading. -/
theorem C3_fee_rate_within_bounds (config : FeeConfig)
    (input_amount reserve_in reserve_out : Nat) (volatility : Option Nat)
    (r : Nat)
    (hmin : config.min_fee_bps ≤ config.base_fee_bps)
    (hbase : config.base_fee_bps ≤ config.max_fee_bps)
    (hmax : config.max_fee_bps ≤ 10000)
    (h : get_fee_rate_bps config input_amount reserve_in reserve_out volatility =
      some r) :
    config.min_fee_bps ≤ r ∧ r ≤ config.max_fee_bps := by
  obtain ⟨st, mn, mx, bs, af⟩ := config
  dsimp only at hmin hbase hmax h ⊢
  cases st
  case Fixed =>
    simp only [get_fee_rate_bps, Option.some.injEq] at h
    omega
  case Dynamic =>
    simp only [get_fee_rate_bps, calculate_dynamic_fee_bps,
      Option.bind_eq_some] at h
    obtain ⟨ratio, h1, adj, h2, bf, h3, t, h4, fadj, h5, tk, h6, fa, h7,
      cf, h8, fb, h9, h10⟩ := h
    rw [if_pos (by omega)] at h10
    injection h10 with h10
    omega
  case Tiered =>
    simp only [get_fee_rate_bps, calculate_tiered_fee_bps] at h
    split at h
    · injection h with h; omega
    · split at h
      · simp only [Option.bind_eq_some] at h
        obtain ⟨s2, hs2, h⟩ := h
        rw [u16Add_eq_some] at hs2
        injection h with h
        omega
      · split at h <;> (injection h with h; omega)
  case VolatilityAdjusted =>
    simp only [get_fee_rate_bps, calculate_volatility_adjusted_fee_bps] at h
    split at h
    · injection h with h; omega
    · split at h
      · injection h with h; omega
      · simp only [Option.bind_eq_some] at h
        obtain ⟨fr, hfr, vp, hvp, p, hp, hadd⟩ := h
        rw [u16Sub_eq_some] at hfr hvp
        rw [u16Mul_eq_some] at hp
        rw [u16Add_eq_some] at hadd
        obtain ⟨hfr1, hfr2⟩ := hfr
        obtain ⟨hvp1, hvp2⟩ := hvp
        obtain ⟨hp1, hp2⟩ := hp
        obtain ⟨hadd1, hadd2⟩ := hadd
        have hvp150 : vp ≤ 150 := by omega
        have hple : p ≤ 150 * fr := by
          subst hp2; subst hvp2
          exact Nat.mul_le_mul_right fr hvp150
        omega

/-- Witness for C3: a Dynamic-strategy configuration at concrete inputs;
the returned (clamped) rate 100 is within `[10, 100]`. -/
theorem C3_fee_rate_within_bounds_witness :
    get_fee_rate_bps ⟨.Dynamic, 10, 100, 30, 1000⟩ 100000 1000000 1000000
      none = some 100 ∧ 10 ≤ 100 ∧ 100 ≤ 100 := by
  refine ⟨by decide, ?_⟩
  exact C3_fee_rate_within_bounds ⟨.Dynamic, 10, 100, 30, 1000⟩
    100000 1000000 1000000 none 100 (by decide) (by decide) (by decide)
    (by decide)

/-! ## Claim C6 -/

/-- Claim C6: under the Tiered strategy, `get_fee_rate_bps` depends only
on `input_amount` through four tiers with exclusive upper bounds at
`1000 * 10^6`, `10000 * 10^6` and `100000 * 10^6`: below tier 1 it is
`max_fee_bps`, then the average of `max_fee_bps` and `base_fee_bps`, then
`base_fee_bps`, and `min_fee_bps` at or above tier 3. -/
theorem C6_tiered_fee_tiers (config : FeeConfig)
    (input_amount reserve_in reserve_out : Nat) (volatility : Option Nat)
    (hstrat : config.strategy = FeeStrategy.Tiered)
    (hbase : config.base_fee_bps ≤ config.max_fee_bps)
    (hmax : config.max_fee_bps ≤ 10000) :
    get_fee_rate_bps config input_amount reserve_in reserve_out volatility =
      some (if input_amount < 1000 * 10 ^ 6 then config.max_fee_bps
        else if input_amount < 10000 * 10 ^ 6 then
          (config.max_fee_bps + config.base_fee_bps) / 2
        else if input_amount < 100000 * 10 ^ 6 then config.base_fee_bps
        else config.min_fee_bps) := by
  obtain ⟨st, mn, mx, bs, af⟩ := config
  dsimp only at hstrat hbase hmax ⊢
  subst hstrat
  simp only [get_fee_rate_bps, calculate_tiered_fee_bps]
  split
  · rfl
  · split
    · have : u16Add mx bs = some (mx + bs) := by
        rw [u16Add_eq_some]; omega
      rw [this]
      rfl
    · split <;> rfl

/-- Witness for C6: the claim's concrete scenario — Tiered strategy with
`base = 30`, `max = 100`, `min = 10` at `input_amount = 500 * 10^6`
returns 100. -/
theorem C6_tiered_fee_tiers_witness :
    get_fee_rate_bps ⟨.Tiered, 10, 100, 30, 1000⟩ (500 * 10 ^ 6) 3 7 none =
      some 100 := by
  have h := C6_tiered_fee_tiers ⟨.Tiered, 10, 100, 30, 1000⟩ (500 * 10 ^ 6)
    3 7 none (by decide) (by decide) (by decide)
  exact h.trans (by decide)

/-! ## Claim C10 -/

/-- Claim C10: a completed `update_price_sample` call preserves
`current_index < 24`; with tracking enabled it writes the new price and
timestamp only into the slot at the old cursor, advances the cursor by
one modulo 24, and sets `last_updated`; with tracking disabled the
tracker is unchanged. -/
theorem C10_update_price_sample_shape (lnFix : Int → Int → Option Int)
    (t : VolatilityTracker) (p ts : Int) (config : VolatilityConfig)
    (hidx : t.current_index < MAX_SAMPLES) :
    (config.enabled = false →
      update_price_sample lnFix t p ts config = some t) ∧
    (∀ t2, update_price_sample lnFix t p ts config = some t2 →
      t2.current_index < MAX_SAMPLES) ∧
    (config.enabled = true →
      ∀ t2, update_price_sample lnFix t p ts config = some t2 →
        t2.price_samples = t.price_samples.set t.current_index p ∧
        t2.timestamps = t.timestamps.set t.current_index ts ∧
        t2.current_index = (t.current_index + 1) % MAX_SAMPLES ∧
        t2.last_updated = ts) := by
  have hshape : config.enabled = true →
      ∀ t2, update_price_sample lnFix t p ts config = some t2 →
        t2.price_samples = t.price_samples.set t.current_index p ∧
        t2.timestamps = t.timestamps.set t.current_index ts ∧
        t2.current_index = (t.current_index + 1) % MAX_SAMPLES ∧
        t2.last_updated = ts := by
    intro he t2 h
    have hidx24 : t.current_index < 24 := hidx
    unfold update_price_sample at h
    rw [he] at h
    rw [if_neg (by simp)] at h
    rw [if_pos (by unfold MAX_SAMPLES; split <;> omega)] at h
    rw [Option.bind_eq_some] at h
    obtain ⟨vol, hvol, h⟩ := h
    rw [if_pos hidx] at h
    injection h with h
    subst h
    exact ⟨rfl, rfl, rfl, rfl⟩
  refine ⟨?_, ?_, hshape⟩
  · intro he
    unfold update_price_sample
    rw [he, if_pos rfl]
  · intro t2 h
    by_cases he : config.enabled = true
    · have := (hshape he t2 h).2.2.1
      rw [this]
      exact Nat.mod_lt _ (by unfold MAX_SAMPLES; omega)
    · have he2 : config.enabled = false := by
        cases hc : config.enabled
        · rfl
        · exact absurd hc he
      unfold update_price_sample at h
      rw [he2, if_pos rfl] at h
      injection h with h
      rw [← h]
      exact hidx

/-- Witness for C10: feeding the zero tracker one enabled sample writes
slot 0, advances the cursor to 1, and stamps `last_updated = 99`. -/
theorem C10_update_price_sample_shape_witness :
    update_price_sample lnZero VolatilityTracker.zero 5 99
        ⟨true, 500, 950, 100, 24, 2, 950, 1000, 86400⟩ =
      some ⟨(VolatilityTracker.zero).price_samples.set 0 5,
        (VolatilityTracker.zero).timestamps.set 0 99, 1, 0, 99, 0⟩ ∧
    (1 : Nat) < MAX_SAMPLES := by
  have h0 : update_price_sample lnZero VolatilityTracker.zero 5 99
      ⟨true, 500, 950, 100, 24, 2, 950, 1000, 86400⟩ =
      some ⟨(VolatilityTracker.zero).price_samples.set 0 5,
        (VolatilityTracker.zero).timestamps.set 0 99, 1, 0, 99, 0⟩ := by decide
  refine ⟨h0, ?_⟩
  have h := (C10_update_price_sample_shape lnZero VolatilityTracker.zero 5 99
    ⟨true, 500, 950, 100, 24, 2, 950, 1000, 86400⟩ (by decide)).2.1 _ h0
  exact h

/-! ## Claim C4 -/

/-- Counterexample to C4 as stated: on a window with one valid pair of
equal prices and log-return `1.0`, the code annualizes by `365 * 24`
(giving raw bits `8760 * 2^64`), not by `sqrt(365 * 24)` as the claim
asserts — the two formulas disagree at this concrete input. -/
theorem C4_annualization_counterexample :
    calculate_volatility lnUnit trackerC4 configC4 =
      some (8760 * 2 ^ 64) ∧
    calculate_volatility_claimC4 lnUnit trackerC4 configC4 =
      some 1726520644020053685479 ∧
    calculate_volatility lnUnit trackerC4 configC4 ≠
      calculate_volatility_claimC4 lnUnit trackerC4 configC4 := by
  refine ⟨by decide, by decide, by decide⟩

/-- Claim C4 (amended): whenever the accumulation pass finds at least
`min_samples` valid pairs, the new volatility estimate is the square root
of the mean weighted squared log return multiplied by `365 * 24` itself
(8760, the number of periods per year at one sample per hour) — not by
its square root; with fewer valid pairs the previous estimate is kept
unchanged. -/
theorem C4_volatility_annualization (lnFix : Int → Int → Option Int)
    (t : VolatilityTracker) (config : VolatilityConfig)
    (sum : Int) (valid : Nat)
    (hacc : volAccum lnFix t.price_samples t.timestamps t.current_index
      config.decay_lambda config.window_size = some (sum, valid)) :
    (valid < config.min_samples →
      calculate_volatility lnFix t config = some t.volatility_raw) ∧
    (config.min_samples ≤ valid →
      ∀ v, calculate_volatility lnFix t config = some v →
        0 ≤ Int.fdiv sum (valid : Int) ∧
        v = (natSqrt ((Int.fdiv sum (valid : Int)).toNat * 2 ^ 64) : Int) *
          (365 * 24)) := by
  constructor
  · intro hlt
    unfold calculate_volatility
    rw [hacc]
    show (if valid ≥ config.min_samples then _ else _) = _
    rw [if_neg (by omega)]
  · intro hge v hv
    unfold calculate_volatility at hv
    rw [hacc, Option.some_bind] at hv
    rw [if_pos (by omega : ((sum, valid) : Int × Nat).2 ≥ config.min_samples)] at hv
    simp only [Option.bind_eq_some] at hv
    obtain ⟨vf, hvf, avg, havg, s, hs, per, hper, hmul⟩ := hv
    unfold fixFromInt at hvf
    split at hvf
    case isFalse => exact absurd hvf (by simp)
    injection hvf with hvf
    unfold fixDiv at havg
    split at havg
    case isTrue hz => exact absurd havg (by simp)
    case isFalse hz =>
    unfold fixCheck at havg
    split at havg
    case isFalse => exact absurd havg (by simp)
    injection havg with havg
    have hvalidpos : 0 < (valid : Int) := by
      rcases Nat.eq_zero_or_pos valid with h0 | h0
      · exfalso; apply hz; rw [← hvf, h0]; simp
      · exact_mod_cast h0
    have havg_eq : avg = Int.fdiv sum (valid : Int) := by
      rw [← havg, ← hvf]
      unfold fixScale
      have e1 : (sum * (2 ^ 64 : Int)).fdiv ((valid : Int) * 2 ^ 64) =
          (sum * 2 ^ 64) / ((valid : Int) * 2 ^ 64) :=
        Int.fdiv_eq_ediv _ (by positivity)
      have e2 : sum.fdiv (valid : Int) = sum / (valid : Int) :=
        Int.fdiv_eq_ediv _ (by positivity)
      rw [e1, e2]
      exact Int.mul_ediv_mul_of_pos_left sum ((valid : Int)) (by positivity)
    unfold fixSqrt at hs
    split at hs
    case isFalse => exact absurd hs (by simp)
    case isTrue hnn =>
    injection hs with hs
    unfold fixFromInt at hper
    rw [if_pos (by norm_num)] at hper
    injection hper with hper
    unfold fixMul fixCheck at hmul
    split at hmul
    case isFalse => exact absurd hmul (by simp)
    injection hmul with hmul
    have hfd : Int.fdiv (s * per) fixScale = s * (365 * 24) := by
      rw [← hper, ← Int.mul_assoc]
      exact Int.mul_fdiv_cancel _ (by unfold fixScale; positivity)
    rw [← havg_eq]
    refine ⟨hnn, ?_⟩
    rw [← hmul, hfd, ← hs]
    norm_cast

/-- Witness for C4's amended theorem at the concrete tracker: one valid
pair, `min_samples = 1`, log-return `1.0` — the estimate is
`sqrt(1.0) * 8760` (raw bits `8760 * 2^64`). -/
theorem C4_volatility_annualization_witness :
    calculate_volatility lnUnit trackerC4 configC4 = some (8760 * 2 ^ 64) ∧
    (8760 * 2 ^ 64 : Int) =
      (natSqrt ((Int.fdiv (2 ^ 64) ((1 : Nat) : Int)).toNat * 2 ^ 64) : Int) *
        (365 * 24) := by
  have h := (C4_volatility_annualization lnUnit trackerC4 configC4
    (2 ^ 64) 1 (by decide)).2 (by decide) (8760 * 2 ^ 64) (by decide)
  exact ⟨by decide, h.2⟩

/-! ## Claim C8 -/

/-- Claim C8: with `PriceImpactConfig.enabled = false`,
`adjust_output_for_slippage` returns its `output_amount` argument
unchanged, for every output amount and every price-impact value. -/
theorem C8_adjust_output_disabled_identity
    (max_slippage_bps dynamic_adjustment_factor output_amount : Nat)
    (price_impact : Int) :
    adjust_output_for_slippage
      ⟨false, max_slippage_bps, dynamic_adjustment_factor⟩
      output_amount price_impact = some output_amount := by
  simp [adjust_output_for_slippage]

/-! ## Claim C9 -/

/-- Claim C9: `estimate_impermanent_loss p p = 0` for every strictly
positive price `p`, and `estimate_impermanent_loss a b = 0` whenever
either argument is non-positive. -/
theorem C9_impermanent_loss_zero (p a b : Int) :
    (0 < p → estimate_impermanent_loss p p = some 0) ∧
    (a ≤ 0 ∨ b ≤ 0 → estimate_impermanent_loss a b = some 0) := by
  constructor
  · intro hp
    have hdiv : fixDiv p p = some fixScale := by
      unfold fixDiv fixCheck fixScale fixLo fixHi
      rw [if_neg (by omega), Int.mul_fdiv_cancel_left _ (by omega)]
      norm_num
    unfold estimate_impermanent_loss
    rw [if_neg (by omega), hdiv]
    decide
  · intro h
    unfold estimate_impermanent_loss
    rw [if_pos h]

/-- Witness for C9 at the concrete prices `1.0` (raw bits `2^64`) and a
negative first argument. -/
theorem C9_impermanent_loss_zero_witness :
    estimate_impermanent_loss (2 ^ 64) (2 ^ 64) = some 0 ∧
    estimate_impermanent_loss (-7) (2 ^ 64) = some 0 := by
  exact ⟨(C9_impermanent_loss_zero (2 ^ 64) (-7) (2 ^ 64)).1 (by decide),
         (C9_impermanent_loss_zero (2 ^ 64) (-7) (2 ^ 64)).2 (Or.inl (by decide))⟩
